import Mathlib

/-! Verification of the `install.py` build-and-install orchestrator.

The script is shallowly embedded: strings handled by the Python code are
modelled as `List Char`, external-process results and filesystem effects are
modelled by an explicit `World`/`FS` state, and each Python function is
translated to a Lean definition of the same name.  Exceptional control flow is
made explicit: `StepResult.fatal` models a `die(msg)` call (one formatted line
on stderr followed by `sys.exit(1)`), `StepResult.exn` models an uncaught
Python exception (multi-line traceback on stderr, process exit code 1).
-/

set_option autoImplicit false

namespace Install

/-! Section: Python string primitives -/

/-- Model of Python `str.split()` with no argument: split on runs of
whitespace, discarding empty fields.  `cur` is the reversed current word. -/
def wordsAux : List Char → List Char → List (List Char)
  | cur, [] => if cur.isEmpty then [] else [cur.reverse]
  | cur, c :: cs =>
    if c.isWhitespace then
      if cur.isEmpty then wordsAux [] cs else cur.reverse :: wordsAux [] cs
    else wordsAux (c :: cur) cs

/-- Python `line.split()` (no separator argument). -/
def pySplitWs (l : List Char) : List (List Char) := wordsAux [] l

/-- Model of Python `str.lstrip(chars)`: drop leading characters that belong
to the character set `chars`. -/
def pyLstrip (chars : List Char) (l : List Char) : List Char :=
  l.dropWhile (fun c => decide (c ∈ chars))

/-- Model of Python `str.split(sep)` for a single-character separator `sep`:
empty fields are kept, and splitting the empty string yields one empty
field. -/
def pySplitOnChar (sep : Char) : List Char → List (List Char)
  | [] => [[]]
  | c :: cs =>
    if c = sep then [] :: pySplitOnChar sep cs
    else
      match pySplitOnChar sep cs with
      | [] => [[c]]
      | w :: ws => (c :: w) :: ws

/-- Numeric value of a list of decimal digit characters. -/
def digitsVal (l : List Char) : Nat :=
  l.foldl (fun n c => 10 * n + (c.toNat - 48)) 0

/-- Model of the Python builtin `int(s)` on the inputs reachable here: an
optional sign followed by a non-empty run of ASCII decimal digits parses to
the corresponding integer; everything else raises `ValueError`, modelled as
`none`.  (The builtin additionally tolerates surrounding whitespace,
underscores between digits and non-ASCII digits; those forms are not produced
by the call sites modelled in this file.) -/
def pyInt (l : List Char) : Option Int :=
  match l with
  | [] => none
  | c :: rest =>
    if c = '-' then
      if rest ≠ [] ∧ rest.all Char.isDigit then some (-(digitsVal rest : Int)) else none
    else if c = '+' then
      if rest ≠ [] ∧ rest.all Char.isDigit then some ((digitsVal rest : Int)) else none
    else if l.all Char.isDigit then some ((digitsVal l : Int)) else none

/-- Model of Python `s.splitlines()[0]` for non-empty `s`: the characters up
to the first line terminator. -/
def firstLine (l : List Char) : List Char :=
  l.takeWhile (fun c => ¬ (c = '\n' ∨ c = '\r'))

/-- Filesystem paths are modelled as lists of path segments. -/
abbrev FilePathSegs := List String

/-- Rendering of a path value for diagnostic messages, matching `str(Path)`
on a POSIX host: segments joined by `/` (an initial empty segment renders the
leading `/` of an absolute path). -/
def pathToString (p : FilePathSegs) : String := String.intercalate "/" p

/-! Section: Go version check (`check_go`, lines 45-54) -/

/-- Constant `REQUIRED_GO_MAJOR` from install.py. -/
def REQUIRED_GO_MAJOR : Int := 1

/-- Constant `REQUIRED_GO_MINOR` from install.py. -/
def REQUIRED_GO_MINOR : Int := 24

/-- The version parser of `check_go` (install.py lines 50-51):
`version_str = result.stdout.split()[2].lstrip("go")` followed by
`int(version_str.split(".")[0]), int(version_str.split(".")[1])`.
`none` models the uncaught `IndexError`/`ValueError` that the Python code
raises when the line does not have the expected shape. -/
def parseGoVersionLine (line : List Char) : Option (Int × Int) :=
  match (pySplitWs line)[2]? with
  | none => none
  | some tok =>
    let version_str := pyLstrip ['g', 'o'] tok
    match (pySplitOnChar '.' version_str)[0]?, (pySplitOnChar '.' version_str)[1]? with
    | some p0, some p1 =>
      match pyInt p0, pyInt p1 with
      | some major, some minor => some (major, minor)
      | _, _ => none
    | _, _ => none

/-- The gate condition of `check_go` (install.py line 52):
`major < REQUIRED_GO_MAJOR or (major == REQUIRED_GO_MAJOR and minor < REQUIRED_GO_MINOR)`.
`true` means the run is terminated via `die`. -/
def goGateFails (major minor : Int) : Bool :=
  decide (major < REQUIRED_GO_MAJOR) ||
    (decide (major = REQUIRED_GO_MAJOR) && decide (minor < REQUIRED_GO_MINOR))

/-! Section: Effect and state model -/

/-- Result of one translated step.  `ok` is normal return, `fatal msg` models
a call to `die(msg)` (which prints exactly one formatted line on stderr and
calls `sys.exit(1)`), and `exn` models an uncaught Python exception (which
prints a multi-line traceback on stderr and exits the process with code 1). -/
inductive StepResult (α : Type) where
  | ok (a : α)
  | fatal (msg : String)
  | exn
  deriving DecidableEq

/-- Observable effects of the script: `info`/`warn` lines on stdout (modelled
by their message, without the coloured `==>`/`warn:` marker), plain `print`
calls, external-process invocations, and filesystem operations. -/
inductive Action where
  | info (msg : String)
  | warn (msg : String)
  | print (msg : String)
  | runCmd (cmd : List String)
  | fsMkdir (dir : FilePathSegs)
  | fsCopy (src dst : FilePathSegs)
  | fsChmod (p : FilePathSegs) (mode : Nat)
  deriving DecidableEq

/-- How the whole process ends. -/
inductive Termination where
  | normal
  | died (msg : String)
  | uncaught
  deriving DecidableEq

/-- Process exit code of each termination: `sys.exit(1)` from `die` and an
uncaught Python exception both exit with code 1. -/
def exitCodeOf : Termination → Nat
  | .normal => 0
  | .died _ => 1
  | .uncaught => 1

/-- Whether the termination wrote exactly one formatted line to the error
stream: `die` does (its `error(msg)` is a single `print` to stderr), while an
uncaught exception writes a multi-line traceback and a normal exit writes
nothing. -/
def printsSingleErrorLine : Termination → Bool
  | .normal => false
  | .died _ => true
  | .uncaught => false

/-- Metadata of one file: contents plus the metadata `shutil.copy2`
preserves (modification time, permission bits). -/
structure FileData where
  content : String
  mtime : Nat
  mode : Nat
  deriving DecidableEq

/-- Filesystem state: the set of existing directories and a map from paths to
file data.  Directories and files are kept in separate maps; the
`shutil.copy2` redirect for a destination that is itself a directory is
outside the model. -/
structure FS where
  dirs : List FilePathSegs
  files : List (FilePathSegs × FileData)
  deriving DecidableEq

/-- Lookup in the file map. -/
def lookupFile : List (FilePathSegs × FileData) → FilePathSegs → Option FileData
  | [], _ => none
  | (q, d) :: rest, p => if q = p then some d else lookupFile rest p

/-- In-place update of the file map (append when the key is new). -/
def setFileEntries : List (FilePathSegs × FileData) → FilePathSegs → FileData →
    List (FilePathSegs × FileData)
  | [], p, d => [(p, d)]
  | (q, e) :: rest, p, d =>
    if q = p then (p, d) :: rest else (q, e) :: setFileEntries rest p d

/-- File lookup on a filesystem state. -/
def FS.lookup (fs : FS) (p : FilePathSegs) : Option FileData := lookupFile fs.files p

/-- Overwrite-or-create a file. -/
def FS.setFile (fs : FS) (p : FilePathSegs) (d : FileData) : FS :=
  { fs with files := setFileEntries fs.files p d }

/-- Insert a directory if absent. -/
def insertDir (dirs : List FilePathSegs) (p : FilePathSegs) : List FilePathSegs :=
  if p ∈ dirs then dirs else dirs ++ [p]

/-- All non-empty ancestors of a path, the path itself included. -/
def ancestors (p : FilePathSegs) : List FilePathSegs :=
  (List.range p.length).map (fun i => p.take (i + 1))

/-- Model of `Path.mkdir(parents=True, exist_ok=True)`: create the directory
and all its ancestors; never an error when some of them already exist. -/
def FS.mkdirParents (fs : FS) (p : FilePathSegs) : FS :=
  { fs with dirs := (ancestors p).foldl insertDir fs.dirs }

/-- Model of `shutil.copy2(src, dst)` with a file destination: copies content
and metadata, overwriting `dst` when it exists.  `none` models the uncaught
`SameFileError` raised when source and destination are the same file, and the
uncaught `FileNotFoundError` raised when the source is missing. -/
def FS.copy2 (fs : FS) (src dst : FilePathSegs) : Option FS :=
  if src = dst then none
  else
    match fs.lookup src with
    | none => none
    | some d => some (fs.setFile dst d)

/-- Model of `Path.chmod(mode)`: `none` models the `FileNotFoundError` on a
missing path. -/
def FS.chmodAt (fs : FS) (p : FilePathSegs) (mode : Nat) : Option FS :=
  match fs.lookup p with
  | none => none
  | some d => some (fs.setFile p { d with mode := mode })

/-- The whole environment a run observes: host platform, resolvability of
executables on the search path (`shutil.which`), outputs and exit statuses of
the external commands, CLI flags, the install directory chosen by
`--prefix`/`INSTALL_DIR`, and the starting filesystem. -/
structure World where
  /-- Result of `platform.system()`. -/
  system : String
  /-- Whether `shutil.which(name)` resolves `name` on PATH. -/
  avail : String → Bool
  /-- Stdout of `go version`. -/
  goStdout : List Char
  /-- Whether an invoked external command exits with status 0. -/
  cmdOk : List String → Bool
  /-- Stdout of `tesseract --version`. -/
  tessStdout : List Char
  /-- Stderr of `tesseract --version`. -/
  tessStderr : List Char
  /-- Whether `tesseract` resolves after a package-manager install ran. -/
  tessAvailAfterInstall : Bool
  /-- The `--with-ocr` flag. -/
  withOcr : Bool
  /-- `args.prefix`: the install directory. -/
  installDirArg : FilePathSegs
  /-- `REPO_ROOT`: directory containing install.py. -/
  repoRoot : FilePathSegs
  /-- `Path.home()`. -/
  home : FilePathSegs
  /-- The `APPDATA` environment variable, as a path. -/
  appdata : Option FilePathSegs
  /-- The `PATH` environment variable (`none` when unset). -/
  pathVar : Option (List Char)
  /-- Initial filesystem state. -/
  fs : FS
  /-- Data of the binary the Go toolchain produces on a successful build. -/
  builtData : FileData

/-- `IS_WINDOWS` (install.py line 23). -/
def isWin (w : World) : Bool := w.system == "Windows"

/-- `BIN_NAME` (install.py line 24). -/
def BIN_NAME (isWindows : Bool) : String :=
  if isWindows then "markitdown-mcp.exe" else "markitdown-mcp"

/-- Outcome of starting one external process. -/
inductive CmdOutcome where
  | ok
  | failed
  | notFound
  deriving DecidableEq

/-- Model of `subprocess.run(cmd, ...)`: a command whose executable does not
resolve raises `FileNotFoundError` (`notFound`); otherwise the command runs
and either exits 0 (`ok`) or non-zero (`failed`, a `CalledProcessError` when
`check=True`). -/
def runOutcome (w : World) (cmd : List String) : CmdOutcome :=
  match cmd with
  | [] => .notFound
  | exe :: _ => if w.avail exe then (if w.cmdOk cmd then .ok else .failed) else .notFound

/-! Section: Translated functions of install.py -/

/-- Translation of `check_go` (install.py lines 45-54).  A missing `go`
executable is a `die`; a failing `go version` invocation raises an uncaught
`CalledProcessError`; an output line that the parser cannot handle raises an
uncaught `IndexError`/`ValueError`; an under-versioned toolchain is a `die`
naming the required and found versions. -/
def check_go (w : World) : List Action × StepResult Unit :=
  if w.avail "go" = false then
    ([], .fatal "Go is not installed. Download it from https://go.dev/dl/ and re-run.")
  else
    match runOutcome w ["go", "version"] with
    | .notFound => ([.runCmd ["go", "version"]], .exn)
    | .failed => ([.runCmd ["go", "version"]], .exn)
    | .ok =>
      match (pySplitWs w.goStdout)[2]? with
      | none => ([.runCmd ["go", "version"]], .exn)
      | some tok =>
        let version_str := pyLstrip ['g', 'o'] tok
        match parseGoVersionLine w.goStdout with
        | none => ([.runCmd ["go", "version"]], .exn)
        | some (major, minor) =>
          if goGateFails major minor then
            ([.runCmd ["go", "version"]],
             .fatal ("Go " ++ toString REQUIRED_GO_MAJOR ++ "." ++ toString REQUIRED_GO_MINOR ++
               "+ required, found " ++ String.mk version_str))
          else
            ([.runCmd ["go", "version"], .info ("Go " ++ String.mk version_str ++ " found")],
             .ok ())

/-- The fixed probe order of `detect_pkg_manager` (install.py line 58). -/
def PM_ORDER : List String := ["brew", "apt-get", "dnf", "yum", "pacman", "zypper", "choco"]

/-- The `for pm in (...): if which(pm): return pm` loop body. -/
def firstAvailable (avail : String → Bool) : List String → String
  | [] => "unknown"
  | pm :: rest => if avail pm then pm else firstAvailable avail rest

/-- Translation of `detect_pkg_manager` (install.py lines 57-61). -/
def detect_pkg_manager (avail : String → Bool) : String :=
  firstAvailable avail PM_ORDER

/-- The install command sequence each package-manager branch of
`install_tesseract` runs (install.py lines 68-82). -/
def pmCommands : String → List (List String)
  | "brew" => [["brew", "install", "tesseract"]]
  | "apt-get" => [["sudo", "apt-get", "update", "-q"],
                  ["sudo", "apt-get", "install", "-y", "tesseract-ocr"]]
  | "dnf" => [["sudo", "dnf", "install", "-y", "tesseract"]]
  | "yum" => [["sudo", "yum", "install", "-y", "tesseract"]]
  | "pacman" => [["sudo", "pacman", "-Sy", "--noconfirm", "tesseract", "tesseract-data-eng"]]
  | "zypper" => [["sudo", "zypper", "install", "-y", "tesseract-ocr"]]
  | "choco" => [["choco", "install", "-y", "tesseract"]]
  | _ => []

/-- Runs a command sequence with `check=True` inside the
`except subprocess.CalledProcessError` handler of `install_tesseract`: a
non-zero exit is caught and turned into `die` (the Python message interpolates
the exception text after the fixed prefix), while a missing executable raises
`FileNotFoundError`, which that handler does not catch. -/
def runPmCommands (w : World) : List (List String) → List Action × StepResult Unit
  | [] => ([], .ok ())
  | c :: rest =>
    match runOutcome w c with
    | .notFound => ([.runCmd c], .exn)
    | .failed => ([.runCmd c], .fatal "Failed to install Tesseract: <CalledProcessError>")
    | .ok =>
      match runPmCommands w rest with
      | (as, r) => (.runCmd c :: as, r)

/-- Translation of `install_tesseract` (install.py lines 64-87).  The boolean
result records whether any package-manager install command was actually run
(the unknown-manager branch only warns). -/
def install_tesseract (w : World) : List Action × StepResult Bool :=
  let pm := detect_pkg_manager w.avail
  let head : List Action := [.info ("Installing Tesseract using package manager: " ++ pm)]
  if pm = "unknown" then
    (head ++
      [.warn "Could not detect a supported package manager.",
       .warn "Install Tesseract manually: https://github.com/tesseract-ocr/tesseract#installing-tesseract"],
     .ok false)
  else
    match runPmCommands w (pmCommands pm) with
    | (as, .ok _) => (head ++ as, .ok true)
    | (as, .fatal m) => (head ++ as, .fatal m)
    | (as, .exn) => (head ++ as, .exn)

/-- Translation of `tesseract_version` (install.py lines 89-92), given whether
`tesseract` currently resolves on PATH.  The call uses `check=False`, so a
non-zero exit is not an error, but a missing executable still raises
`FileNotFoundError`.  Version output may be on stdout or stderr; stdout takes
precedence (`result.stdout or result.stderr`). -/
def tesseract_version (w : World) (tessAvail : Bool) : List Action × StepResult String :=
  if tessAvail then
    let output := if w.tessStdout.isEmpty then w.tessStderr else w.tessStdout
    ([.runCmd ["tesseract", "--version"]],
     .ok (if output.isEmpty then "unknown" else String.mk (firstLine output)))
  else
    ([.runCmd ["tesseract", "--version"]], .exn)

/-- Translation of `check_tesseract` (install.py lines 94-106).  After
`install_tesseract` returns, availability of `tesseract` for the subsequent
`tesseract_version()` call is `tessAvailAfterInstall` when an install command
actually ran, and unchanged otherwise. -/
def check_tesseract (w : World) : List Action × StepResult Unit :=
  if w.withOcr then
    if w.avail "tesseract" then
      match tesseract_version w true with
      | (as, .ok v) => (as ++ [.info ("Tesseract already installed: " ++ v)], .ok ())
      | (as, .fatal m) => (as, .fatal m)
      | (as, .exn) => (as, .exn)
    else
      match install_tesseract w with
      | (as, .ok performed) =>
        match tesseract_version w
            (if performed then w.tessAvailAfterInstall else w.avail "tesseract") with
        | (bs, .ok v) => (as ++ bs ++ [.info ("Tesseract installed: " ++ v)], .ok ())
        | (bs, .fatal m) => (as ++ bs, .fatal m)
        | (bs, .exn) => (as ++ bs, .exn)
      | (as, .fatal m) => (as, .fatal m)
      | (as, .exn) => (as, .exn)
  else
    if w.avail "tesseract" then
      match tesseract_version w true with
      | (as, .ok v) => (as ++ [.info ("Tesseract found: " ++ v ++ " — OCR enabled")], .ok ())
      | (as, .fatal m) => (as, .fatal m)
      | (as, .exn) => (as, .exn)
    else
      ([.warn "Tesseract not found. Image OCR will be unavailable.",
        .warn "Re-run with --with-ocr to install, or install manually and restart the server."],
       .ok ())

/-- Translation of `build` (install.py lines 109-118).  Both toolchain
invocations run with `check=True` inside a handler that turns
`CalledProcessError` into `die` (message prefix `Build failed: ` plus the
exception text); a successful build writes the binary artifact at
`SRC_DIR / BIN_NAME`. -/
def build (w : World) : List Action × FS × StepResult FilePathSegs :=
  let a0 : List Action := [.info ("Building " ++ BIN_NAME (isWin w) ++ "...")]
  let c1 : List String := ["go", "mod", "tidy", "-e"]
  match runOutcome w c1 with
  | .notFound => (a0 ++ [.runCmd c1], w.fs, .exn)
  | .failed => (a0 ++ [.runCmd c1], w.fs, .fatal "Build failed: <CalledProcessError>")
  | .ok =>
    let c2 : List String := ["go", "build", "-ldflags=-s -w", "-o=" ++ BIN_NAME (isWin w), "."]
    match runOutcome w c2 with
    | .notFound => (a0 ++ [.runCmd c1, .runCmd c2], w.fs, .exn)
    | .failed => (a0 ++ [.runCmd c1, .runCmd c2], w.fs, .fatal "Build failed: <CalledProcessError>")
    | .ok =>
      let bin_path := w.repoRoot ++ ["src", "markitdown", BIN_NAME (isWin w)]
      (a0 ++ [.runCmd c1, .runCmd c2, .info ("Built: " ++ pathToString bin_path)],
       w.fs.setFile bin_path w.builtData, .ok bin_path)

/-- Translation of `install_binary` (install.py lines 121-128): create the
install directory with parents, copy the artifact with `shutil.copy2`, set
mode `0o755` on non-Windows hosts, return the destination path.  A failing
copy or chmod is an uncaught exception (there is no handler in the source). -/
def install_binary (isWindows : Bool) (fs : FS) (bin_path install_dir : FilePathSegs) :
    List Action × FS × StepResult FilePathSegs :=
  let fs1 := fs.mkdirParents install_dir
  let dest := install_dir ++ [BIN_NAME isWindows]
  match fs1.copy2 bin_path dest with
  | none => ([.fsMkdir install_dir, .fsCopy bin_path dest], fs1, .exn)
  | some fs2 =>
    if isWindows then
      ([.fsMkdir install_dir, .fsCopy bin_path dest,
        .info ("Installed to: " ++ pathToString dest)], fs2, .ok dest)
    else
      match fs2.chmodAt dest 493 with
      | none => ([.fsMkdir install_dir, .fsCopy bin_path dest, .fsChmod dest 493], fs2, .exn)
      | some fs3 =>
        ([.fsMkdir install_dir, .fsCopy bin_path dest, .fsChmod dest 493,
          .info ("Installed to: " ++ pathToString dest)], fs3, .ok dest)

/-- Translation of `check_path` (install.py lines 130-137):
`os.environ.get("PATH", "").split(os.pathsep)` and a membership test of
`str(install_dir)` by plain string equality, warning (with a platform-specific
remediation) when absent.  The function is total: it never raises. -/
def check_path (w : World) : List Action :=
  let sep : Char := if isWin w then ';' else ':'
  let path_dirs := pySplitOnChar sep ((w.pathVar).getD [])
  let dirStr := pathToString w.installDirArg
  if dirStr.data ∈ path_dirs then []
  else
    [.warn (dirStr ++ " is not on your PATH.")] ++
      (if isWin w then
        [.warn ("Add it via: setx PATH \"%PATH%;" ++ dirStr ++ "\"")]
      else
        [.warn ("Add this to your shell profile: export PATH=\"" ++ dirStr ++ ":$PATH\"")])

/-- The configuration text `print_config` interpolates into its f-string
(install.py lines 145-153), for a given rendering of `full_path`. -/
def configSnippet (full_path : String) : String :=
  "\n\x7b\n  \"mcpServers\": \x7b\n    \"markitdown\": \x7b\n      \"command\": \"" ++
    full_path ++ "\"\n    \x7d\n  \x7d\n\x7d\n"

/-- JSON values with string leaves and single-field objects, enough to state
the shape `print_config` must reproduce. -/
inductive Json where
  | str (s : String)
  | obj1 (key : String) (val : Json)

/-- Indentation by spaces. -/
def spaces : Nat → String
  | 0 => ""
  | n + 1 => " " ++ spaces n

/-- Pretty-printer for `Json` in the two-space-indent layout Python's
triple-quoted f-string lays the configuration object out in. -/
def renderJson : Nat → Json → String
  | _, .str s => "\"" ++ s ++ "\""
  | ind, .obj1 k v =>
    "\x7b\n" ++ spaces (ind + 2) ++ "\"" ++ k ++ "\": " ++ renderJson (ind + 2) v ++
      "\n" ++ spaces ind ++ "\x7d"

/-- The configuration object the spec requires: exactly
`\x7b"mcpServers": \x7b"markitdown": \x7b"command": "<path>"\x7d\x7d\x7d`. -/
def expectedConfig (path : String) : Json :=
  .obj1 "mcpServers" (.obj1 "markitdown" (.obj1 "command" (.str path)))

/-- The desktop-client configuration location `print_config` reports
(install.py lines 155-164). -/
def claudeConfigLocation (w : World) : String :=
  if w.system = "Darwin" then
    pathToString (w.home ++ ["Library", "Application Support", "Claude",
      "claude_desktop_config.json"])
  else if w.system = "Linux" then
    pathToString (w.home ++ [".config", "Claude", "claude_desktop_config.json"])
  else if w.system = "Windows" then
    pathToString ((w.appdata.getD (w.home ++ ["AppData", "Roaming"])) ++
      ["Claude", "claude_desktop_config.json"])
  else "your MCP client config file"

/-- Translation of `print_config` (install.py lines 140-168): each `Action.print`
models one `print(...)` call (the trailing newline of `print` is implicit). -/
def print_config (w : World) (full_path : FilePathSegs) : List Action :=
  [.print "",
   .print "────────────────────────────────────────────────────",
   .print "  Add to your MCP client configuration:",
   .print "────────────────────────────────────────────────────",
   .print (configSnippet (pathToString full_path)),
   .print ("Claude Desktop config: " ++ claudeConfigLocation w),
   .print "Claude Code config:    .mcp.json in your project root",
   .print ""]

/-- The observable result of one whole run. -/
structure RunResult where
  trace : List Action
  term : Termination
  fs : FS
  deriving DecidableEq

/-- Translation of `main` (install.py lines 171-201): the linear sequence
`check_go` then `check_tesseract` then `build` then `install_binary` then
`check_path` then `print_config`; a `die` or uncaught exception in any step
terminates the run there. -/
def main (w : World) : RunResult :=
  match check_go w with
  | (a, .fatal m) => ⟨a, .died m, w.fs⟩
  | (a, .exn) => ⟨a, .uncaught, w.fs⟩
  | (a, .ok _) =>
    match check_tesseract w with
    | (b, .fatal m) => ⟨a ++ b, .died m, w.fs⟩
    | (b, .exn) => ⟨a ++ b, .uncaught, w.fs⟩
    | (b, .ok _) =>
      match build w with
      | (c, fs1, .fatal m) => ⟨a ++ b ++ c, .died m, fs1⟩
      | (c, fs1, .exn) => ⟨a ++ b ++ c, .uncaught, fs1⟩
      | (c, fs1, .ok bin_path) =>
        match install_binary (isWin w) fs1 bin_path w.installDirArg with
        | (d, fs2, .fatal m) => ⟨a ++ b ++ c ++ d, .died m, fs2⟩
        | (d, fs2, .exn) => ⟨a ++ b ++ c ++ d, .uncaught, fs2⟩
        | (d, fs2, .ok full_path) =>
          ⟨a ++ b ++ c ++ d ++ check_path w ++ print_config w full_path ++
            [.info "Done. Restart your MCP client to pick up the new server."],
           .normal, fs2⟩

/-! Section: Helper lemmas -/

theorem pyLstrip_go_digits (pfx a rest : List Char)
    (hpfx : ∀ ch ∈ pfx, ch = 'g' ∨ ch = 'o')
    (ha : a ≠ []) (had : ∀ ch ∈ a, ch.isDigit) :
    pyLstrip ['g', 'o'] (pfx ++ (a ++ rest)) = a ++ rest := by
  induction pfx with
  | nil =>
    cases a with
    | nil => exact absurd rfl ha
    | cons d tl =>
      have hd := had d (by simp)
      have hg : d ≠ 'g' := fun he => absurd (he ▸ hd) (by decide)
      have ho : d ≠ 'o' := fun he => absurd (he ▸ hd) (by decide)
      simp [pyLstrip, List.dropWhile_cons, hg, ho]
  | cons c pfx ih =>
    have hc := hpfx c (by simp)
    have ih' := ih (fun ch hch => hpfx ch (by simp [hch]))
    rcases hc with h | h <;> simpa [pyLstrip, List.dropWhile_cons, h] using ih'

theorem pySplitOnChar_ne_nil (sep : Char) (l : List Char) : pySplitOnChar sep l ≠ [] := by
  cases l with
  | nil => simp [pySplitOnChar]
  | cons c cs =>
    by_cases h : c = sep
    · simp [pySplitOnChar, h]
    · simp only [pySplitOnChar, if_neg h]
      cases pySplitOnChar sep cs <;> simp

theorem pySplitOnChar_append (sep : Char) (a rest : List Char) (h : sep ∉ a) :
    pySplitOnChar sep (a ++ sep :: rest) = a :: pySplitOnChar sep rest := by
  induction a with
  | nil => simp [pySplitOnChar]
  | cons c a ih =>
    have hc : ¬ c = sep := fun he => h (by simp [he])
    have ih' := ih (fun hm => h (by simp [hm]))
    simp only [List.cons_append, pySplitOnChar, if_neg hc, List.append_eq]
    rw [ih']

theorem pyInt_digits (a : List Char) (ha : a ≠ []) (had : ∀ ch ∈ a, ch.isDigit) :
    pyInt a = some ((digitsVal a : Nat) : Int) := by
  cases a with
  | nil => exact absurd rfl ha
  | cons d tl =>
    have hd := had d (by simp)
    have hminus : ¬ d = '-' := by
      intro he
      rw [he] at hd
      exact absurd hd (by decide)
    have hplus : ¬ d = '+' := by
      intro he
      rw [he] at hd
      exact absurd hd (by decide)
    have hall : (d :: tl).all Char.isDigit = true := by
      rw [List.all_eq_true]
      intro x hx
      exact had x hx
    simp [pyInt, hminus, hplus, hall]

/-! Section: C1: the toolchain gate -/

/-- C1: for every parsed toolchain version `(major, minor)`, the gate of
`check_go` passes (does not `die`) iff `(major, minor)` is at least `(1, 24)`
in numeric lexicographic order on major then minor; in particular `(1, 9)`
fails, `(2, 0)` passes, and `(1, 24)` passes (boundary inclusive). -/
theorem C1_gate_iff : ∀ major minor : Int,
    (goGateFails major minor = false ↔
      (REQUIRED_GO_MAJOR < major ∨ (major = REQUIRED_GO_MAJOR ∧ REQUIRED_GO_MINOR ≤ minor)))
    ∧ goGateFails 1 9 = true ∧ goGateFails 2 0 = false ∧ goGateFails 1 24 = false := by
  intro major minor
  refine ⟨?_, by decide, by decide, by decide⟩
  simp only [goGateFails, REQUIRED_GO_MAJOR, REQUIRED_GO_MINOR, Bool.or_eq_false_iff,
    Bool.and_eq_false_iff, decide_eq_false_iff_not]
  omega

/-! Section: C2: the version parser -/

/-- C2 (amended): the parser of `check_go` extracts `(major, minor)` from any
version line whose third whitespace-separated field is a token
`<prefix><major>.<minor>.<patch>` with `<prefix>` drawn from the characters
`g` and `o`, regardless of the other whitespace-separated fields; lines whose
version token sits elsewhere, or carries another prefix, raise instead
(see the counterexample). -/
theorem C2_parse_correct (line t0 t1 : List Char) (rest : List (List Char))
    (pfx a b c : List Char)
    (hsplit : pySplitWs line = t0 :: t1 :: (pfx ++ (a ++ ('.' :: (b ++ ('.' :: c))))) :: rest)
    (hpfx : ∀ ch ∈ pfx, ch = 'g' ∨ ch = 'o')
    (ha : a ≠ []) (had : ∀ ch ∈ a, ch.isDigit)
    (hb : b ≠ []) (hbd : ∀ ch ∈ b, ch.isDigit) :
    parseGoVersionLine line = some (((digitsVal a : Nat) : Int), ((digitsVal b : Nat) : Int)) := by
  have hnda : '.' ∉ a := fun hm => absurd (had '.' hm) (by decide)
  have hndb : '.' ∉ b := fun hm => absurd (hbd '.' hm) (by decide)
  have hstrip := pyLstrip_go_digits pfx a ('.' :: (b ++ ('.' :: c))) hpfx ha had
  have hsplit1 := pySplitOnChar_append '.' a (b ++ ('.' :: c)) hnda
  have hsplit2 := pySplitOnChar_append '.' b c hndb
  simp only [parseGoVersionLine, hsplit, List.getElem?_cons_succ, List.getElem?_cons_zero,
    hstrip, hsplit1, hsplit2, pyInt_digits a ha had, pyInt_digits b hb hbd]

/-- C2 (counterexample): the claim fails as stated.  The line `go1.24.0`
contains the version token `go1.24.0` among its whitespace-separated fields,
and the line `go version v1.24.0 linux/amd64` contains the shaped token
`v1.24.0`, yet the parser raises (models `IndexError`/`ValueError`, result
`none`) on both instead of extracting `(1, 24)`. -/
theorem C2_counterexample :
    ("go1.24.0".data ∈ pySplitWs "go1.24.0".data ∧
      parseGoVersionLine "go1.24.0".data = none) ∧
    ("v1.24.0".data ∈ pySplitWs "go version v1.24.0 linux/amd64".data ∧
      parseGoVersionLine "go version v1.24.0 linux/amd64".data = none) := by
  decide

/-- C2 (witness): on the documented line `go version go1.24.0 darwin/arm64`
the parser extracts `(1, 24)`. -/
theorem C2_witness :
    parseGoVersionLine "go version go1.24.0 darwin/arm64".data = some (1, 24) := by
  have h := C2_parse_correct "go version go1.24.0 darwin/arm64".data
    "go".data "version".data ["darwin/arm64".data] "go".data "1".data "24".data "0".data
    (by decide) (by decide) (by decide) (by decide) (by decide) (by decide)
  exact h

/-! Section: C5: package-manager selection -/

theorem firstAvailable_eq_unknown (avail : String → Bool) (l : List String)
    (h : ∀ x ∈ l, avail x = false) : firstAvailable avail l = "unknown" := by
  induction l with
  | nil => rfl
  | cons pm rest ih =>
    have hpm := h pm (by simp)
    simp only [firstAvailable, hpm, Bool.false_eq_true, if_false]
    exact ih (fun x hx => h x (by simp [hx]))

theorem firstAvailable_first (avail : String → Bool) (l₁ : List String) (pm : String)
    (l₂ : List String) (h1 : ∀ q ∈ l₁, avail q = false) (h2 : avail pm = true) :
    firstAvailable avail (l₁ ++ pm :: l₂) = pm := by
  induction l₁ with
  | nil => simp [firstAvailable, h2]
  | cons q rest ih =>
    have hq := h1 q (by simp)
    simp only [List.cons_append, firstAvailable, hq, Bool.false_eq_true, if_false]
    exact ih (fun x hx => h1 x (by simp [hx]))

/-- C5: `detect_pkg_manager` probes exactly the executables of `PM_ORDER`
(brew, apt-get, dnf, yum, pacman, zypper, choco) in that order: whenever it
is the first available entry of that list, a manager is returned, and when no
entry is available the sentinel `unknown` is returned.  The result is a
function of `avail` alone, hence deterministic for a fixed set of available
managers. -/
theorem C5_detect_first (avail : String → Bool) :
    ((∀ pm ∈ PM_ORDER, avail pm = false) → detect_pkg_manager avail = "unknown") ∧
    (∀ l₁ pm l₂, PM_ORDER = l₁ ++ pm :: l₂ → (∀ q ∈ l₁, avail q = false) →
      avail pm = true → detect_pkg_manager avail = pm) := by
  constructor
  · intro h
    exact firstAvailable_eq_unknown avail PM_ORDER h
  · intro l₁ pm l₂ horder h1 h2
    unfold detect_pkg_manager
    rw [horder]
    exact firstAvailable_first avail l₁ pm l₂ h1 h2

/-- Availability used by the C5 witness: only `dnf` and `zypper` resolve. -/
def availDnfZypper : String → Bool := fun s => s == "dnf" || s == "zypper"

/-- C5 (witness): with `dnf` and `zypper` available the probe returns `dnf`,
the earlier of the two in the fixed order. -/
theorem C5_witness : detect_pkg_manager availDnfZypper = "dnf" :=
  (C5_detect_first availDnfZypper).2 ["brew", "apt-get"] "dnf"
    ["yum", "pacman", "zypper", "choco"] (by decide) (by decide) (by decide)

/-! Section: C3: missing toolchain stops the run before any side effect -/

/-- C3: when the `go` executable is not resolvable, the run dies with the
remediation message and exit code 1, with an empty action trace — no
provisioning, build or install step is attempted and the filesystem is
untouched. -/
theorem C3_go_missing (w : World) (h : w.avail "go" = false) :
    main w = ⟨[], .died "Go is not installed. Download it from https://go.dev/dl/ and re-run.",
      w.fs⟩ ∧
    exitCodeOf (main w).term = 1 := by
  have hm : main w = ⟨[],
      .died "Go is not installed. Download it from https://go.dev/dl/ and re-run.", w.fs⟩ := by
    unfold main check_go
    rw [h]
    rfl
  exact ⟨hm, by rw [hm]; rfl⟩

/-- World of the C3 witness: nothing resolves on PATH. -/
def worldNoGo : World where
  system := "Linux"
  avail := fun _ => false
  goStdout := []
  cmdOk := fun _ => false
  tessStdout := []
  tessStderr := []
  tessAvailAfterInstall := false
  withOcr := false
  installDirArg := ["", "home", "u", ".local", "bin"]
  repoRoot := ["", "repo"]
  home := ["", "home", "u"]
  appdata := none
  pathVar := none
  fs := ⟨[], []⟩
  builtData := ⟨"binary", 7, 420⟩

/-- C3 (witness): the concrete no-toolchain world dies with exit code 1 and
an empty trace. -/
theorem C3_witness :
    main worldNoGo = ⟨[],
      .died "Go is not installed. Download it from https://go.dev/dl/ and re-run.",
      worldNoGo.fs⟩ ∧
    exitCodeOf (main worldNoGo).term = 1 :=
  C3_go_missing worldNoGo rfl

/-! Section: C7: provisioning is idempotent when the tool is present -/

/-- Whether an action is a package-manager install invocation: every command
`install_tesseract` issues starts with `brew`, `sudo` or `choco`. -/
def isPmInstallAction : Action → Bool
  | .runCmd ("brew" :: _) => true
  | .runCmd ("sudo" :: _) => true
  | .runCmd ("choco" :: _) => true
  | _ => false

/-- C7: in provisioning mode with `tesseract` already resolvable,
`check_tesseract` performs no package-manager install action, reports the
installed version (the first line of the tool's version output) and returns
normally; as a pure function of the world it does the same on every re-run
(idempotence). -/
theorem C7_provision_idempotent (w : World) (h1 : w.withOcr = true)
    (h2 : w.avail "tesseract" = true) :
    (check_tesseract w).2 = .ok () ∧
    (check_tesseract w).1.all (fun a => !(isPmInstallAction a)) = true ∧
    (∃ v, (tesseract_version w true).2 = .ok v ∧
      (check_tesseract w).1 = [.runCmd ["tesseract", "--version"],
        .info ("Tesseract already installed: " ++ v)]) := by
  have hct : check_tesseract w =
      ([.runCmd ["tesseract", "--version"],
        .info ("Tesseract already installed: " ++
          (if (if w.tessStdout.isEmpty then w.tessStderr else w.tessStdout).isEmpty then
            "unknown"
          else String.mk (firstLine
            (if w.tessStdout.isEmpty then w.tessStderr else w.tessStdout))))],
       .ok ()) := by
    unfold check_tesseract
    rw [h1, h2]
    rfl
  refine ⟨by rw [hct], by rw [hct]; rfl, ?_⟩
  exact ⟨_, rfl, by rw [hct]⟩

/-- World of the C7 witness: `go` and `tesseract` resolve, provisioning is
requested, and `tesseract --version` reports on stdout. -/
def worldTessPresent : World where
  system := "Linux"
  avail := fun s => s == "go" || s == "tesseract"
  goStdout := "go version go1.24.0 linux/amd64".data
  cmdOk := fun _ => true
  tessStdout := "tesseract 5.3.4\n leptonica-1.84.1".data
  tessStderr := []
  tessAvailAfterInstall := true
  withOcr := true
  installDirArg := ["", "home", "u", ".local", "bin"]
  repoRoot := ["", "repo"]
  home := ["", "home", "u"]
  appdata := none
  pathVar := none
  fs := ⟨[], []⟩
  builtData := ⟨"binary", 7, 420⟩

/-- C7 (witness): the concrete already-installed world provisions nothing and
reports `tesseract 5.3.4`. -/
theorem C7_witness :
    (check_tesseract worldTessPresent).2 = .ok () ∧
    (check_tesseract worldTessPresent).1.all (fun a => !(isPmInstallAction a)) = true ∧
    (∃ v, (tesseract_version worldTessPresent true).2 = .ok v ∧
      (check_tesseract worldTessPresent).1 = [.runCmd ["tesseract", "--version"],
        .info ("Tesseract already installed: " ++ v)]) :=
  C7_provision_idempotent worldTessPresent rfl rfl

/-! Section: C6: provisioning with no package manager -/

/-- Whether an action is one of the two Go build-step invocations. -/
def isGoBuildAction : Action → Bool
  | .runCmd ("go" :: "mod" :: _) => true
  | .runCmd ("go" :: "build" :: _) => true
  | _ => false

/-- Whether an action is an install-step filesystem operation. -/
def isInstallAction : Action → Bool
  | .fsMkdir _ => true
  | .fsCopy _ _ => true
  | .fsChmod _ _ => true
  | _ => false

/-- World of the C6 failing input: `--with-ocr` on a host with a valid Go
toolchain, no `tesseract`, and none of the supported package managers. -/
def worldOcrNoPm : World where
  system := "Linux"
  avail := fun s => s == "go"
  goStdout := "go version go1.24.0 linux/amd64".data
  cmdOk := fun _ => true
  tessStdout := []
  tessStderr := []
  tessAvailAfterInstall := false
  withOcr := true
  installDirArg := ["", "home", "u", ".local", "bin"]
  repoRoot := ["", "repo"]
  home := ["", "home", "u"]
  appdata := none
  pathVar := none
  fs := ⟨[], []⟩
  builtData := ⟨"binary", 7, 420⟩

/-- C6: on the failing input the advisory warnings are emitted, but the run
does not proceed to the build and install steps and does not exit with code
0: after the unknown-manager branch returns, `check_tesseract` still calls
`tesseract_version()`, whose `subprocess.run` on the absent `tesseract`
raises an uncaught `FileNotFoundError`, terminating the run with a traceback
before `build` is reached — the code contradicts its own advisory messages,
which tell the user to install manually and restart. -/
theorem C6_advisory_path_crashes :
    (main worldOcrNoPm).term = .uncaught ∧
    exitCodeOf (main worldOcrNoPm).term = 1 ∧
    (main worldOcrNoPm).trace.all (fun a => !(isGoBuildAction a)) = true ∧
    (main worldOcrNoPm).trace.all (fun a => !(isInstallAction a)) = true ∧
    Action.warn "Could not detect a supported package manager." ∈ (main worldOcrNoPm).trace ∧
    Action.runCmd ["tesseract", "--version"] ∈ (main worldOcrNoPm).trace := by
  decide

/-! Section: C4: fatal-error reporting -/

theorem check_go_ok (w : World) (M m : Int) (h1 : w.avail "go" = true)
    (h2 : w.cmdOk ["go", "version"] = true) (h3 : parseGoVersionLine w.goStdout = some (M, m))
    (h4 : goGateFails M m = false) :
    ∃ tok, check_go w = ([.runCmd ["go", "version"],
      .info ("Go " ++ String.mk (pyLstrip ['g', 'o'] tok) ++ " found")], .ok ()) := by
  cases e : (pySplitWs w.goStdout)[2]? with
  | none =>
    rw [parseGoVersionLine, e] at h3
    exact absurd h3 (by simp)
  | some tok =>
    refine ⟨tok, ?_⟩
    unfold check_go runOutcome
    simp only [h1, h2, e, h3, h4, Bool.true_eq_false, if_false, if_true, Bool.false_eq_true]

theorem check_go_under_version (w : World) (M m : Int) (h1 : w.avail "go" = true)
    (h2 : w.cmdOk ["go", "version"] = true) (h3 : parseGoVersionLine w.goStdout = some (M, m))
    (h4 : goGateFails M m = true) :
    ∃ msg, check_go w = ([.runCmd ["go", "version"]], .fatal msg) := by
  cases e : (pySplitWs w.goStdout)[2]? with
  | none =>
    rw [parseGoVersionLine, e] at h3
    exact absurd h3 (by simp)
  | some tok =>
    refine ⟨"Go " ++ toString REQUIRED_GO_MAJOR ++ "." ++ toString REQUIRED_GO_MINOR ++
      "+ required, found " ++ String.mk (pyLstrip ['g', 'o'] tok), ?_⟩
    unfold check_go runOutcome
    simp only [h1, h2, e, h3, h4, Bool.true_eq_false, if_false, if_true]

theorem check_go_parse_failure (w : World) (h1 : w.avail "go" = true)
    (h2 : w.cmdOk ["go", "version"] = true) (h3 : parseGoVersionLine w.goStdout = none) :
    check_go w = ([.runCmd ["go", "version"]], .exn) := by
  unfold check_go runOutcome
  cases e : (pySplitWs w.goStdout)[2]? with
  | none => simp only [h1, h2, e, Bool.true_eq_false, if_false, if_true]
  | some tok => simp only [h1, h2, e, h3, Bool.true_eq_false, if_false, if_true]

theorem check_tesseract_verify_absent (w : World) (hocr : w.withOcr = false)
    (htess : w.avail "tesseract" = false) :
    check_tesseract w =
      ([.warn "Tesseract not found. Image OCR will be unavailable.",
        .warn "Re-run with --with-ocr to install, or install manually and restart the server."],
       .ok ()) := by
  unfold check_tesseract
  rw [hocr, htess]
  rfl

theorem runPmCommands_first_failed (w : World) (pre : List (List String)) (c : List String)
    (post : List (List String)) (hpre : ∀ c' ∈ pre, runOutcome w c' = .ok)
    (hc : runOutcome w c = .failed) :
    runPmCommands w (pre ++ c :: post) =
      (pre.map Action.runCmd ++ [.runCmd c],
       .fatal "Failed to install Tesseract: <CalledProcessError>") := by
  induction pre with
  | nil => simp [runPmCommands, hc]
  | cons c0 pre ih =>
    have h0 := hpre c0 (by simp)
    have ih' := ih (fun x hx => hpre x (by simp [hx]))
    simp [runPmCommands, h0, ih']

theorem install_tesseract_cmd_failure (w : World) (pm : String)
    (pre : List (List String)) (c : List String) (post : List (List String))
    (hpm : detect_pkg_manager w.avail = pm) (hunknown : pm ≠ "unknown")
    (hsplit : pmCommands pm = pre ++ c :: post)
    (hpre : ∀ c' ∈ pre, runOutcome w c' = .ok) (hc : runOutcome w c = .failed) :
    install_tesseract w =
      (.info ("Installing Tesseract using package manager: " ++ pm) ::
        (pre.map Action.runCmd ++ [.runCmd c]),
       .fatal "Failed to install Tesseract: <CalledProcessError>") := by
  have hrun := runPmCommands_first_failed w pre c post hpre hc
  rw [← hsplit] at hrun
  simp only [install_tesseract, hpm, if_neg hunknown, hrun]
  simp

theorem check_tesseract_provision_failure (w : World) (as : List Action) (msg : String)
    (hocr : w.withOcr = true) (htess : w.avail "tesseract" = false)
    (hit : install_tesseract w = (as, .fatal msg)) :
    check_tesseract w = (as, .fatal msg) := by
  unfold check_tesseract
  rw [hocr, htess, hit]
  rfl

theorem build_tidy_failure (w : World) (h1 : w.avail "go" = true)
    (htidy : w.cmdOk ["go", "mod", "tidy", "-e"] = false) :
    build w = ([.info ("Building " ++ BIN_NAME (isWin w) ++ "..."),
      .runCmd ["go", "mod", "tidy", "-e"]], w.fs,
      .fatal "Build failed: <CalledProcessError>") := by
  unfold build runOutcome
  simp only [h1, htidy, Bool.false_eq_true, if_false, if_true]
  rfl

theorem build_compile_failure (w : World) (h1 : w.avail "go" = true)
    (htidy : w.cmdOk ["go", "mod", "tidy", "-e"] = true)
    (hbuild : w.cmdOk ["go", "build", "-ldflags=-s -w", "-o=" ++ BIN_NAME (isWin w), "."] = false) :
    build w = ([.info ("Building " ++ BIN_NAME (isWin w) ++ "..."),
      .runCmd ["go", "mod", "tidy", "-e"],
      .runCmd ["go", "build", "-ldflags=-s -w", "-o=" ++ BIN_NAME (isWin w), "."]], w.fs,
      .fatal "Build failed: <CalledProcessError>") := by
  unfold build runOutcome
  simp only [h1, htidy, hbuild, Bool.false_eq_true, if_false, if_true]
  rfl

theorem build_ok (w : World) (h1 : w.avail "go" = true)
    (htidy : w.cmdOk ["go", "mod", "tidy", "-e"] = true)
    (hbuild : w.cmdOk ["go", "build", "-ldflags=-s -w", "-o=" ++ BIN_NAME (isWin w), "."] = true) :
    build w = ([.info ("Building " ++ BIN_NAME (isWin w) ++ "..."),
      .runCmd ["go", "mod", "tidy", "-e"],
      .runCmd ["go", "build", "-ldflags=-s -w", "-o=" ++ BIN_NAME (isWin w), "."],
      .info ("Built: " ++ pathToString (w.repoRoot ++ ["src", "markitdown", BIN_NAME (isWin w)]))],
      w.fs.setFile (w.repoRoot ++ ["src", "markitdown", BIN_NAME (isWin w)]) w.builtData,
      .ok (w.repoRoot ++ ["src", "markitdown", BIN_NAME (isWin w)])) := by
  unfold build runOutcome
  simp only [h1, htidy, hbuild, if_true]
  rfl

/-- C4 (amended): a missing toolchain, an under-versioned toolchain, a fatal
provisioning failure (any detected package manager whose install-command
sequence hits a command that exits non-zero) and a build failure (either
toolchain invocation, from any state that reaches the build step) each
terminate the run through `die`, i.e. with exactly one formatted line on the
error stream and exit code 1; a version-parse failure and an install failure
(any run reaching the install step whose filesystem operations raise) instead
propagate as uncaught exceptions — a multi-line traceback on the error
stream, not a single formatted line — still exiting with a non-zero code. -/
theorem C4_fatal_reporting (w : World) (M m : Int) :
    (w.avail "go" = false →
      printsSingleErrorLine (main w).term = true ∧ exitCodeOf (main w).term = 1) ∧
    (w.avail "go" = true → w.cmdOk ["go", "version"] = true →
      parseGoVersionLine w.goStdout = some (M, m) → goGateFails M m = true →
      printsSingleErrorLine (main w).term = true ∧ exitCodeOf (main w).term = 1) ∧
    (w.avail "go" = true → w.cmdOk ["go", "version"] = true →
      parseGoVersionLine w.goStdout = none →
      (main w).term = .uncaught ∧ printsSingleErrorLine (main w).term = false ∧
        exitCodeOf (main w).term = 1) ∧
    (∀ acts pm pre c post, check_go w = (acts, .ok ()) →
      w.withOcr = true → w.avail "tesseract" = false →
      detect_pkg_manager w.avail = pm → pm ≠ "unknown" →
      pmCommands pm = pre ++ c :: post →
      (∀ c' ∈ pre, runOutcome w c' = .ok) → runOutcome w c = .failed →
      (main w).term = .died "Failed to install Tesseract: <CalledProcessError>" ∧
        printsSingleErrorLine (main w).term = true ∧ exitCodeOf (main w).term = 1) ∧
    (∀ acts bs cs fs1 msg, check_go w = (acts, .ok ()) →
      check_tesseract w = (bs, .ok ()) → build w = (cs, fs1, .fatal msg) →
      (main w).term = .died msg ∧
        printsSingleErrorLine (main w).term = true ∧ exitCodeOf (main w).term = 1) ∧
    (∀ acts bs cs ds bp fs1 fs2, check_go w = (acts, .ok ()) →
      check_tesseract w = (bs, .ok ()) → build w = (cs, fs1, .ok bp) →
      install_binary (isWin w) fs1 bp w.installDirArg = (ds, fs2, .exn) →
      (main w).term = .uncaught ∧ printsSingleErrorLine (main w).term = false ∧
        exitCodeOf (main w).term = 1) := by
  refine ⟨?_, ?_, ?_, ?_, ?_, ?_⟩
  · intro h
    have hcg : check_go w =
        ([], .fatal "Go is not installed. Download it from https://go.dev/dl/ and re-run.") := by
      unfold check_go
      rw [h]
      rfl
    simp [main, hcg, printsSingleErrorLine, exitCodeOf]
  · intro h1 h2 h3 h4
    obtain ⟨msg, hcg⟩ := check_go_under_version w M m h1 h2 h3 h4
    simp [main, hcg, printsSingleErrorLine, exitCodeOf]
  · intro h1 h2 h3
    have hcg := check_go_parse_failure w h1 h2 h3
    simp [main, hcg, printsSingleErrorLine, exitCodeOf]
  · intro acts pm pre c post hcg hocr htess hpm hunknown hsplit hpre hc
    have hit := install_tesseract_cmd_failure w pm pre c post hpm hunknown hsplit hpre hc
    have hct := check_tesseract_provision_failure w _ _ hocr htess hit
    simp [main, hcg, hct, printsSingleErrorLine, exitCodeOf]
  · intro acts bs cs fs1 msg hcg hct hb
    simp [main, hcg, hct, hb, printsSingleErrorLine, exitCodeOf]
  · intro acts bs cs ds bp fs1 fs2 hcg hct hb hib
    simp [main, hcg, hct, hb, hib, printsSingleErrorLine, exitCodeOf]

/-- World of the C4 counterexample: a valid `go` whose version line
`go version unknown` defeats the parser. -/
def worldBadVersionLine : World where
  system := "Linux"
  avail := fun s => s == "go"
  goStdout := "go version unknown".data
  cmdOk := fun _ => true
  tessStdout := []
  tessStderr := []
  tessAvailAfterInstall := false
  withOcr := false
  installDirArg := ["", "home", "u", ".local", "bin"]
  repoRoot := ["", "repo"]
  home := ["", "home", "u"]
  appdata := none
  pathVar := none
  fs := ⟨[], []⟩
  builtData := ⟨"binary", 7, 420⟩

/-- World of the second C4 counterexample instance: everything succeeds until
the install step, whose destination equals the artifact path, so
`shutil.copy2` raises an uncaught `SameFileError`. -/
def worldInstallFailure : World where
  system := "Linux"
  avail := fun s => s == "go"
  goStdout := "go version go1.24.0 linux/amd64".data
  cmdOk := fun _ => true
  tessStdout := []
  tessStderr := []
  tessAvailAfterInstall := false
  withOcr := false
  installDirArg := ["", "repo", "src", "markitdown"]
  repoRoot := ["", "repo"]
  home := ["", "home", "u"]
  appdata := none
  pathVar := none
  fs := ⟨[], []⟩
  builtData := ⟨"binary", 7, 420⟩

/-- C4 (counterexample): two fatal conditions of the claim without the single
formatted error line.  A version-parse failure terminates the run by an
uncaught exception — a multi-line traceback, not one formatted line; and an
install failure (here `--prefix` at the build directory, a `SameFileError` in
`shutil.copy2`) likewise ends in an uncaught exception, after the build step
already ran. -/
theorem C4_counterexample :
    ((main worldBadVersionLine).term = .uncaught ∧
      printsSingleErrorLine (main worldBadVersionLine).term = false ∧
      exitCodeOf (main worldBadVersionLine).term = 1) ∧
    ((main worldInstallFailure).term = .uncaught ∧
      printsSingleErrorLine (main worldInstallFailure).term = false ∧
      exitCodeOf (main worldInstallFailure).term = 1 ∧
      Action.runCmd ["go", "build", "-ldflags=-s -w", "-o=markitdown-mcp", "."] ∈
        (main worldInstallFailure).trace ∧
      Action.fsCopy ["", "repo", "src", "markitdown", "markitdown-mcp"]
        ["", "repo", "src", "markitdown", "markitdown-mcp"] ∈
        (main worldInstallFailure).trace) := by
  decide

/-- C4 (witness): the missing-toolchain conjunct at the concrete world with
nothing on PATH. -/
theorem C4_witness :
    printsSingleErrorLine (main worldNoGo).term = true ∧
    exitCodeOf (main worldNoGo).term = 1 :=
  (C4_fatal_reporting worldNoGo 0 0).1 rfl

/-! Section: C8: the installer -/

theorem lookupFile_set_self (l : List (FilePathSegs × FileData)) (p : FilePathSegs)
    (d : FileData) : lookupFile (setFileEntries l p d) p = some d := by
  induction l with
  | nil => simp [setFileEntries, lookupFile]
  | cons e rest ih =>
    by_cases h : e.1 = p
    · simp [setFileEntries, lookupFile, h]
    · simp [setFileEntries, lookupFile, h, ih]

theorem lookupFile_set_ne (l : List (FilePathSegs × FileData)) (p q : FilePathSegs)
    (d : FileData) (h : q ≠ p) :
    lookupFile (setFileEntries l p d) q = lookupFile l q := by
  have h' : ¬ p = q := fun he => h he.symm
  induction l with
  | nil => simp [setFileEntries, lookupFile, h']
  | cons e rest ih =>
    by_cases he : e.1 = p
    · simp [setFileEntries, lookupFile, he, h']
    · simp [setFileEntries, lookupFile, he, ih]

theorem setFileEntries_twice (l : List (FilePathSegs × FileData)) (p : FilePathSegs)
    (d1 d2 : FileData) :
    setFileEntries (setFileEntries l p d1) p d2 = setFileEntries l p d2 := by
  induction l with
  | nil => simp [setFileEntries]
  | cons e rest ih =>
    by_cases h : e.1 = p
    · simp [setFileEntries, h]
    · simp [setFileEntries, h, ih]

theorem setFileEntries_id (l : List (FilePathSegs × FileData)) (p : FilePathSegs)
    (d : FileData) (h : lookupFile l p = some d) : setFileEntries l p d = l := by
  induction l with
  | nil => simp [lookupFile] at h
  | cons e rest ih =>
    by_cases he : e.1 = p
    · rw [lookupFile] at h
      rw [if_pos he] at h
      obtain ⟨e1, e2⟩ := e
      cases h
      simp only [setFileEntries, if_pos he]
      rw [← he]
    · rw [lookupFile] at h
      rw [if_neg he] at h
      simp [setFileEntries, he, ih h]

theorem mem_insertDir_mono (dirs : List FilePathSegs) (p q : FilePathSegs)
    (h : q ∈ dirs) : q ∈ insertDir dirs p := by
  unfold insertDir
  by_cases hp : p ∈ dirs
  · simpa [hp] using h
  · simp [hp, h]

theorem mem_insertDir_self (dirs : List FilePathSegs) (p : FilePathSegs) :
    p ∈ insertDir dirs p := by
  unfold insertDir
  by_cases hp : p ∈ dirs
  · simp [hp]
  · simp [hp]

theorem mem_foldl_insertDir_mono (ps : List FilePathSegs) (dirs : List FilePathSegs)
    (q : FilePathSegs) (h : q ∈ dirs) : q ∈ ps.foldl insertDir dirs := by
  induction ps generalizing dirs with
  | nil => simpa using h
  | cons p ps ih => exact ih (insertDir dirs p) (mem_insertDir_mono dirs p q h)

theorem mem_foldl_insertDir (ps : List FilePathSegs) (dirs : List FilePathSegs)
    (q : FilePathSegs) (h : q ∈ ps) : q ∈ ps.foldl insertDir dirs := by
  induction ps generalizing dirs with
  | nil => simp at h
  | cons p ps ih =>
    rcases List.mem_cons.mp h with he | hm
    · subst he
      exact mem_foldl_insertDir_mono ps (insertDir dirs q) q (mem_insertDir_self dirs q)
    · exact ih (insertDir dirs p) hm

theorem insertDir_of_mem (dirs : List FilePathSegs) (p : FilePathSegs) (h : p ∈ dirs) :
    insertDir dirs p = dirs := by
  simp [insertDir, h]

theorem foldl_insertDir_of_subset (ps : List FilePathSegs) (dirs : List FilePathSegs)
    (h : ∀ p ∈ ps, p ∈ dirs) : ps.foldl insertDir dirs = dirs := by
  induction ps with
  | nil => rfl
  | cons p ps ih =>
    have hp := h p (by simp)
    simp only [List.foldl_cons, insertDir_of_mem dirs p hp]
    exact ih (fun q hq => h q (by simp [hq]))

theorem install_binary_success (isWindows : Bool) (fs : FS)
    (bin_path install_dir : FilePathSegs) (d : FileData)
    (hsrc : fs.lookup bin_path = some d)
    (hne : bin_path ≠ install_dir ++ [BIN_NAME isWindows]) :
    install_binary isWindows fs bin_path install_dir =
      ([.fsMkdir install_dir, .fsCopy bin_path (install_dir ++ [BIN_NAME isWindows])] ++
        (if isWindows then [] else
          [.fsChmod (install_dir ++ [BIN_NAME isWindows]) 493]) ++
        [.info ("Installed to: " ++ pathToString (install_dir ++ [BIN_NAME isWindows]))],
       (if isWindows then
          (fs.mkdirParents install_dir).setFile (install_dir ++ [BIN_NAME isWindows]) d
        else
          ((fs.mkdirParents install_dir).setFile (install_dir ++ [BIN_NAME isWindows])
            d).setFile (install_dir ++ [BIN_NAME isWindows]) { d with mode := 493 }),
       .ok (install_dir ++ [BIN_NAME isWindows])) := by
  have hlk1 : (fs.mkdirParents install_dir).lookup bin_path = some d := hsrc
  have hcopy : (fs.mkdirParents install_dir).copy2 bin_path
      (install_dir ++ [BIN_NAME isWindows]) =
      some ((fs.mkdirParents install_dir).setFile (install_dir ++ [BIN_NAME isWindows]) d) := by
    unfold FS.copy2
    rw [if_neg hne, hlk1]
  have hchmod : ((fs.mkdirParents install_dir).setFile (install_dir ++ [BIN_NAME isWindows])
      d).chmodAt (install_dir ++ [BIN_NAME isWindows]) 493 =
      some (((fs.mkdirParents install_dir).setFile (install_dir ++ [BIN_NAME isWindows])
        d).setFile (install_dir ++ [BIN_NAME isWindows]) { d with mode := 493 }) := by
    unfold FS.chmodAt FS.lookup FS.setFile
    rw [lookupFile_set_self]
  cases isWindows with
  | true =>
    unfold install_binary
    simp [hcopy]
  | false =>
    unfold install_binary
    simp [hcopy, hchmod]

theorem FS.setFile_id (fs : FS) (p : FilePathSegs) (d : FileData)
    (h : fs.lookup p = some d) : fs.setFile p d = fs := by
  unfold FS.setFile
  rw [setFileEntries_id fs.files p d h]

theorem FS.setFile_setFile (fs : FS) (p : FilePathSegs) (d1 d2 : FileData) :
    (fs.setFile p d1).setFile p d2 = fs.setFile p d2 := by
  unfold FS.setFile
  simp only [setFileEntries_twice]

theorem FS.mkdirParents_id (fs : FS) (p : FilePathSegs)
    (h : ∀ q ∈ ancestors p, q ∈ fs.dirs) : fs.mkdirParents p = fs := by
  unfold FS.mkdirParents
  rw [foldl_insertDir_of_subset (ancestors p) fs.dirs h]

theorem FS.lookup_setFile_self (fs : FS) (p : FilePathSegs) (d : FileData) :
    (fs.setFile p d).lookup p = some d := lookupFile_set_self fs.files p d

theorem FS.lookup_setFile_ne (fs : FS) (p q : FilePathSegs) (d : FileData) (h : q ≠ p) :
    (fs.setFile p d).lookup q = fs.lookup q := lookupFile_set_ne fs.files p q d h

/-- C8 (amended): for every artifact and install directory whose resolved
destination differs from the artifact path, `install_binary` creates the
target directory and its ancestors (no error when they already exist — the
starting filesystem is arbitrary), copies the artifact preserving its content
and metadata, on non-Windows platforms sets the installed file's mode to
`0o755` (= 493), returns the installed path, and a re-run against the
existing destination overwrites it without error, reaching exactly the same
filesystem state.  When destination and artifact coincide, `shutil.copy2`
instead raises `SameFileError` (see the counterexample). -/
theorem C8_installer (isWindows : Bool) (fs : FS)
    (bin_path install_dir : FilePathSegs) (d : FileData)
    (hsrc : fs.lookup bin_path = some d)
    (hne : bin_path ≠ install_dir ++ [BIN_NAME isWindows]) :
    ∃ fs2 : FS,
      install_binary isWindows fs bin_path install_dir =
        ([.fsMkdir install_dir, .fsCopy bin_path (install_dir ++ [BIN_NAME isWindows])] ++
          (if isWindows then [] else
            [.fsChmod (install_dir ++ [BIN_NAME isWindows]) 493]) ++
          [.info ("Installed to: " ++ pathToString (install_dir ++ [BIN_NAME isWindows]))],
         fs2, .ok (install_dir ++ [BIN_NAME isWindows])) ∧
      (∀ q ∈ ancestors install_dir, q ∈ fs2.dirs) ∧
      fs2.lookup (install_dir ++ [BIN_NAME isWindows]) =
        some (if isWindows then d else { d with mode := 493 }) ∧
      install_binary isWindows fs2 bin_path install_dir =
        ([.fsMkdir install_dir, .fsCopy bin_path (install_dir ++ [BIN_NAME isWindows])] ++
          (if isWindows then [] else
            [.fsChmod (install_dir ++ [BIN_NAME isWindows]) 493]) ++
          [.info ("Installed to: " ++ pathToString (install_dir ++ [BIN_NAME isWindows]))],
         fs2, .ok (install_dir ++ [BIN_NAME isWindows])) := by
  have hanc : ∀ q ∈ ancestors install_dir,
      q ∈ ((fs.mkdirParents install_dir).dirs) := by
    intro q hq
    exact mem_foldl_insertDir (ancestors install_dir) fs.dirs q hq
  cases isWindows with
  | true =>
    have h1 := install_binary_success true fs bin_path install_dir d hsrc hne
    refine ⟨(fs.mkdirParents install_dir).setFile (install_dir ++ [BIN_NAME true]) d,
      by simpa using h1, ?_, ?_, ?_⟩
    · intro q hq
      simpa [FS.setFile] using hanc q hq
    · simp [FS.lookup_setFile_self]
    · have hlk2 : ((fs.mkdirParents install_dir).setFile
          (install_dir ++ [BIN_NAME true]) d).lookup bin_path = some d := by
        rw [FS.lookup_setFile_ne _ _ _ _ hne]
        exact hsrc
      have h2 := install_binary_success true
        ((fs.mkdirParents install_dir).setFile (install_dir ++ [BIN_NAME true]) d)
        bin_path install_dir d hlk2 hne
      have hmk : (((fs.mkdirParents install_dir).setFile
          (install_dir ++ [BIN_NAME true]) d)).mkdirParents install_dir =
          (fs.mkdirParents install_dir).setFile (install_dir ++ [BIN_NAME true]) d :=
        FS.mkdirParents_id _ install_dir (fun q hq => by
          simpa [FS.setFile] using hanc q hq)
      have hsf : (((fs.mkdirParents install_dir).setFile
          (install_dir ++ [BIN_NAME true]) d)).setFile
          (install_dir ++ [BIN_NAME true]) d =
          (fs.mkdirParents install_dir).setFile (install_dir ++ [BIN_NAME true]) d :=
        FS.setFile_setFile _ _ d d
      rw [h2, hmk, hsf]
      simp
  | false =>
    have h1 := install_binary_success false fs bin_path install_dir d hsrc hne
    refine ⟨((fs.mkdirParents install_dir).setFile (install_dir ++ [BIN_NAME false])
        d).setFile (install_dir ++ [BIN_NAME false]) { d with mode := 493 },
      by simpa using h1, ?_, ?_, ?_⟩
    · intro q hq
      simpa [FS.setFile] using hanc q hq
    · simp [FS.lookup_setFile_self]
    · have hlk2 : (((fs.mkdirParents install_dir).setFile
          (install_dir ++ [BIN_NAME false]) d).setFile
          (install_dir ++ [BIN_NAME false]) { d with mode := 493 }).lookup bin_path =
          some d := by
        rw [FS.lookup_setFile_ne _ _ _ _ hne, FS.lookup_setFile_ne _ _ _ _ hne]
        exact hsrc
      have h2 := install_binary_success false
        (((fs.mkdirParents install_dir).setFile (install_dir ++ [BIN_NAME false])
          d).setFile (install_dir ++ [BIN_NAME false]) { d with mode := 493 })
        bin_path install_dir d hlk2 hne
      have hmk : ((((fs.mkdirParents install_dir).setFile
          (install_dir ++ [BIN_NAME false]) d).setFile
          (install_dir ++ [BIN_NAME false]) { d with mode := 493 })).mkdirParents
          install_dir =
          ((fs.mkdirParents install_dir).setFile (install_dir ++ [BIN_NAME false])
            d).setFile (install_dir ++ [BIN_NAME false]) { d with mode := 493 } :=
        FS.mkdirParents_id _ install_dir (fun q hq => by
          simpa [FS.setFile] using hanc q hq)
      have hcollapse : ((((fs.mkdirParents install_dir).setFile
          (install_dir ++ [BIN_NAME false]) d).setFile
          (install_dir ++ [BIN_NAME false]) { d with mode := 493 }).setFile
          (install_dir ++ [BIN_NAME false]) d).setFile
          (install_dir ++ [BIN_NAME false]) { d with mode := 493 } =
          ((fs.mkdirParents install_dir).setFile (install_dir ++ [BIN_NAME false])
            d).setFile (install_dir ++ [BIN_NAME false]) { d with mode := 493 } := by
        rw [FS.setFile_setFile]
        exact FS.setFile_id _ _ _ (FS.lookup_setFile_self _ _ _)
      rw [h2, hmk, hcollapse]
      simp

/-- Filesystem of the C8 counterexample: the build directory exists and holds
the built artifact. -/
def fsSameFile : FS :=
  ⟨[["", "repo", "src", "markitdown"]],
   [(["", "repo", "src", "markitdown", "markitdown-mcp"], ⟨"binary", 5, 493⟩)]⟩

/-- C8 (counterexample): with the build directory itself as install directory
the artifact exists, yet `install_binary` does not succeed — `shutil.copy2`
raises `SameFileError` (an uncaught exception), so the claim fails for this
install directory. -/
theorem C8_counterexample :
    fsSameFile.lookup ["", "repo", "src", "markitdown", "markitdown-mcp"] =
      some ⟨"binary", 5, 493⟩ ∧
    (install_binary false fsSameFile ["", "repo", "src", "markitdown", "markitdown-mcp"]
      ["", "repo", "src", "markitdown"]).2.2 = .exn := by
  decide

/-- Filesystem of the C8 witness: only the built artifact exists. -/
def fsWithArtifact : FS :=
  ⟨[], [(["", "repo", "src", "markitdown", "markitdown-mcp"], ⟨"binary", 5, 420⟩)]⟩

/-- C8 (witness): installing the artifact into `~/.local/bin` on a POSIX host
creates the directory chain, installs the file with mode `0o755`, and
re-running reproduces the same state. -/
theorem C8_witness :
    ∃ fs2 : FS,
      install_binary false fsWithArtifact
          ["", "repo", "src", "markitdown", "markitdown-mcp"]
          ["", "home", "u", ".local", "bin"] =
        ([.fsMkdir ["", "home", "u", ".local", "bin"],
          .fsCopy ["", "repo", "src", "markitdown", "markitdown-mcp"]
            ["", "home", "u", ".local", "bin", "markitdown-mcp"],
          .fsChmod ["", "home", "u", ".local", "bin", "markitdown-mcp"] 493,
          .info ("Installed to: " ++
            pathToString ["", "home", "u", ".local", "bin", "markitdown-mcp"])],
         fs2, .ok ["", "home", "u", ".local", "bin", "markitdown-mcp"]) ∧
      (∀ q ∈ ancestors ["", "home", "u", ".local", "bin"], q ∈ fs2.dirs) ∧
      fs2.lookup ["", "home", "u", ".local", "bin", "markitdown-mcp"] =
        some ⟨"binary", 5, 493⟩ ∧
      install_binary false fs2
          ["", "repo", "src", "markitdown", "markitdown-mcp"]
          ["", "home", "u", ".local", "bin"] =
        ([.fsMkdir ["", "home", "u", ".local", "bin"],
          .fsCopy ["", "repo", "src", "markitdown", "markitdown-mcp"]
            ["", "home", "u", ".local", "bin", "markitdown-mcp"],
          .fsChmod ["", "home", "u", ".local", "bin", "markitdown-mcp"] 493,
          .info ("Installed to: " ++
            pathToString ["", "home", "u", ".local", "bin", "markitdown-mcp"])],
         fs2, .ok ["", "home", "u", ".local", "bin", "markitdown-mcp"]) := by
  have h := C8_installer false fsWithArtifact
    ["", "repo", "src", "markitdown", "markitdown-mcp"]
    ["", "home", "u", ".local", "bin"] ⟨"binary", 5, 420⟩ (by decide) (by decide)
  simpa using h

/-! Section: C9: the configuration snippet -/

theorem install_binary_ok_dest (isWindows : Bool) (fs : FS) (bp idir p : FilePathSegs)
    (acts : List Action) (fs2 : FS)
    (h : install_binary isWindows fs bp idir = (acts, fs2, .ok p)) :
    p = idir ++ [BIN_NAME isWindows] := by
  simp only [install_binary] at h
  split at h
  · simp [Prod.ext_iff] at h
  · split at h
    · simp only [Prod.mk.injEq] at h
      exact (StepResult.ok.inj h.2.2).symm
    · split at h
      · simp [Prod.ext_iff] at h
      · simp only [Prod.mk.injEq] at h
        exact (StepResult.ok.inj h.2.2).symm

/-- Whether a segment-list path renders to an absolute POSIX path:
`pathToString` yields a leading `/` exactly when the first segment is empty
(the segment form of `/home/u/...` is `["", "home", "u", ...]`). -/
def isAbsolutePath : FilePathSegs → Bool
  | [] => false
  | s :: _ => s == ""

/-- C9 (amended): `print_config` prints the configuration text in exactly the
shape `\x7b"mcpServers": \x7b"markitdown": \x7b"command": "<path>"\x7d\x7d\x7d`
(rendered with the two-space indentation of the source f-string), and on every
fully successful run the path interpolated into it is the installed binary's
path `install_dir / BIN_NAME` returned by `install_binary`.  That path is
absolute whenever the install prefix is absolute (as the defaults are); the
code performs no normalization, so a relative `--prefix`/`INSTALL_DIR` yields
a relative printed path (see the counterexample). -/
theorem C9_config_emitted :
    (∀ path : String, configSnippet path = "\n" ++ renderJson 0 (expectedConfig path) ++ "\n") ∧
    (∀ w : World, (main w).term = .normal →
      Action.print (configSnippet (pathToString (w.installDirArg ++ [BIN_NAME (isWin w)]))) ∈
        (main w).trace) ∧
    (∀ w : World, isAbsolutePath w.installDirArg = true →
      isAbsolutePath (w.installDirArg ++ [BIN_NAME (isWin w)]) = true) := by
  refine ⟨?_, ?_, ?_⟩
  · intro p
    cases p with
    | mk data =>
      simp [configSnippet, renderJson, expectedConfig, spaces, String.append_assoc]
      rfl
  · intro w hterm
    rcases hcg : check_go w with ⟨a, r⟩
    cases r with
    | fatal m => simp [main, hcg] at hterm
    | exn => simp [main, hcg] at hterm
    | ok u =>
      cases u
      rcases hct : check_tesseract w with ⟨b, r2⟩
      cases r2 with
      | fatal m => simp [main, hcg, hct] at hterm
      | exn => simp [main, hcg, hct] at hterm
      | ok u2 =>
        cases u2
        rcases hb : build w with ⟨c, fs1, r3⟩
        cases r3 with
        | fatal m => simp [main, hcg, hct, hb] at hterm
        | exn => simp [main, hcg, hct, hb] at hterm
        | ok bin_path =>
          rcases hib : install_binary (isWin w) fs1 bin_path w.installDirArg with ⟨dd, fs2, r4⟩
          cases r4 with
          | fatal m => simp [main, hcg, hct, hb, hib] at hterm
          | exn => simp [main, hcg, hct, hb, hib] at hterm
          | ok full_path =>
            have hp := install_binary_ok_dest (isWin w) fs1 bin_path w.installDirArg
              full_path dd fs2 hib
            subst hp
            simp [main, hcg, hct, hb, hib, print_config]
  · intro w habs
    cases hd : w.installDirArg with
    | nil =>
      rw [hd] at habs
      exact absurd habs (by decide)
    | cons s rest =>
      rw [hd] at habs
      simpa [isAbsolutePath] using habs

/-- World of the C9 counterexample: a fully successful run whose prefix is
the relative directory `build`. -/
def worldRelPrefix : World where
  system := "Linux"
  avail := fun s => s == "go"
  goStdout := "go version go1.24.0 linux/amd64".data
  cmdOk := fun _ => true
  tessStdout := []
  tessStderr := []
  tessAvailAfterInstall := false
  withOcr := false
  installDirArg := ["build"]
  repoRoot := ["", "repo"]
  home := ["", "home", "u"]
  appdata := none
  pathVar := none
  fs := ⟨[], []⟩
  builtData := ⟨"binary", 7, 420⟩

/-- C9 (counterexample): with the relative prefix `build` the run fully
succeeds and the configuration snippet is printed with the relative command
path `build/markitdown-mcp`, not the installed binary's absolute path. -/
theorem C9_counterexample :
    (main worldRelPrefix).term = .normal ∧
    Action.print (configSnippet (pathToString
        (worldRelPrefix.installDirArg ++ [BIN_NAME (isWin worldRelPrefix)]))) ∈
      (main worldRelPrefix).trace ∧
    pathToString (worldRelPrefix.installDirArg ++ [BIN_NAME (isWin worldRelPrefix)]) =
      "build/markitdown-mcp" ∧
    isAbsolutePath (worldRelPrefix.installDirArg ++ [BIN_NAME (isWin worldRelPrefix)]) =
      false := by
  decide

/-- World of the C9 witness: a fully successful default run (valid toolchain,
no OCR tool, default prefix). -/
def worldFullSuccess : World where
  system := "Linux"
  avail := fun s => s == "go"
  goStdout := "go version go1.24.0 linux/amd64".data
  cmdOk := fun _ => true
  tessStdout := []
  tessStderr := []
  tessAvailAfterInstall := false
  withOcr := false
  installDirArg := ["", "home", "u", ".local", "bin"]
  repoRoot := ["", "repo"]
  home := ["", "home", "u"]
  appdata := none
  pathVar := none
  fs := ⟨[], []⟩
  builtData := ⟨"binary", 7, 420⟩

/-- C9 (witness): the snippet shape at a concrete path, the successful
concrete run printing the snippet for its installed path, and the
absoluteness of that path under the absolute default prefix. -/
theorem C9_witness :
    configSnippet "/home/u/.local/bin/markitdown-mcp" =
      "\n" ++ renderJson 0 (expectedConfig "/home/u/.local/bin/markitdown-mcp") ++ "\n" ∧
    Action.print (configSnippet (pathToString
        (worldFullSuccess.installDirArg ++ [BIN_NAME (isWin worldFullSuccess)]))) ∈
      (main worldFullSuccess).trace ∧
    isAbsolutePath (worldFullSuccess.installDirArg ++ [BIN_NAME (isWin worldFullSuccess)]) =
      true :=
  ⟨C9_config_emitted.1 "/home/u/.local/bin/markitdown-mcp",
   C9_config_emitted.2.1 worldFullSuccess (by decide),
   C9_config_emitted.2.2 worldFullSuccess (by decide)⟩

/-! Section: C10: the PATH diagnostic -/

/-- C10: `check_path` warns exactly when `str(install_dir)` is not literally
one of the segments obtained by splitting the PATH variable on the platform
separator — plain string equality, no normalization; an unset PATH is read as
the empty string, whose split is the single empty segment, so the warning is
emitted for every non-empty directory rendering (and the function is total:
it never raises). -/
theorem C10_path_membership (w : World) :
    (check_path w ≠ [] ↔
      (pathToString w.installDirArg).data ∉
         pySplitOnChar (if isWin w then ';' else ':') ((w.pathVar).getD [])) ∧
    (w.pathVar = none →
      pySplitOnChar (if isWin w then ';' else ':') ((w.pathVar).getD []) = [[]]) ∧
    (w.pathVar = none → (pathToString w.installDirArg).data ≠ [] → check_path w ≠ []) := by
  have hiff : check_path w ≠ [] ↔
      (pathToString w.installDirArg).data ∉
        pySplitOnChar (if isWin w then ';' else ':') ((w.pathVar).getD []) := by
    unfold check_path
    by_cases hm : (pathToString w.installDirArg).data ∈
        pySplitOnChar (if isWin w then ';' else ':') ((w.pathVar).getD [])
    · simp [hm]
    · simp only [hm, if_neg, not_false_eq_true, iff_true]
      simp
  refine ⟨hiff, fun h => by rw [h]; rfl, fun h hne => hiff.mpr ?_⟩
  rw [h]
  simpa [pySplitOnChar] using hne

/-- World of the C10 witness: the install directory sits on PATH only with a
trailing slash, a different spelling. -/
def worldTrailingSlash : World where
  system := "Linux"
  avail := fun s => s == "go"
  goStdout := "go version go1.24.0 linux/amd64".data
  cmdOk := fun _ => true
  tessStdout := []
  tessStderr := []
  tessAvailAfterInstall := false
  withOcr := false
  installDirArg := ["", "home", "u", ".local", "bin"]
  repoRoot := ["", "repo"]
  home := ["", "home", "u"]
  appdata := none
  pathVar := some "/usr/bin:/home/u/.local/bin/".data
  fs := ⟨[], []⟩
  builtData := ⟨"binary", 7, 420⟩

/-- C10 (witness): the trailing-slash spelling is reported as absent, and the
unset-PATH world always warns. -/
theorem C10_witness :
    check_path worldTrailingSlash ≠ [] ∧ check_path worldNoGo ≠ [] :=
  ⟨(C10_path_membership worldTrailingSlash).1.mpr (by decide),
   (C10_path_membership worldNoGo).2.2 rfl (by decide)⟩

end Install
